import Mathlib

/-!
Shallow embedding of the offline-first synchronization engine of the
clubfridge-kasse point-of-sale agent, and verification of the frozen
claims about it.

Embedded components (translated from the Python source):
* `local_db.py`  — pending-booking queue and reference-data caches
  (`get_pending_bookings`, `mark_bookings_synced`, `replace_member_cache`,
  `replace_product_cache`);
* `api_client.py` — HTTP result classification (`sync_bookings`,
  heartbeat status classification with auth codes 401/403/404;
  `httpx.Response.raise_for_status` raises exactly on a non-2xx status);
* `sync.py`      — the reconciliation cycle (`_loop` body,
  `_try_sync_bookings`, `_try_refresh_cache`, `_try_refresh_config`);
* `sse_listener.py` — the SSE reconnect loop with exponential backoff and
  the line-oriented event parser.

Network and clock effects are passed in explicitly as environment values
(an HTTP status is `Option Nat`, `none` standing for a connection-level
exception); each operation additionally returns a trace recording which
side effects it performed, so that temporal claims ("no refresh before
heartbeat") become statements about the trace.
-/

namespace Clubfridge

/-- HTTP status codes treated as authorization failures
(`_AUTH_ERROR_CODES = frozenset({401, 403, 404})` in `api_client.py`). -/
def authErrorCodes : List Nat := [401, 403, 404]

/-- Success range of `httpx.Response.is_success`: `raise_for_status`
returns normally exactly on a 2xx status. -/
def is_success (s : Nat) : Bool := 200 ≤ s && s < 300

/-- Row of the `pending_bookings` table (`local_db.PendingBooking`).
`items_json` is the raw JSON text of the line items, `total_price` the
fixed-point amount in cents, `booked_at` an abstract timestamp. -/
structure PendingBooking where
  id : String
  member_id : String
  items_json : String
  total_price : Int
  booked_at : Nat
  synced : Bool
deriving DecidableEq, Repr

/-- The booking queue: the `pending_bookings` table as a list of rows. -/
abbrev BookingDb := List PendingBooking

/-- `local_db.get_pending_bookings`: `SELECT * FROM pending_bookings WHERE synced = false`. -/
def get_pending_bookings (db : BookingDb) : List PendingBooking :=
  db.filter (fun b => !b.synced)

/-- `local_db.mark_bookings_synced`: `UPDATE pending_bookings SET synced = true
WHERE id IN booking_ids`.  Every row whose id is listed gets `synced := true`;
all other rows and all other columns are untouched; no row is deleted. -/
def mark_bookings_synced (booking_ids : List String) (db : BookingDb) : BookingDb :=
  db.map (fun b => if booking_ids.contains b.id then { b with synced := true } else b)

/-- One element of the payload list built by `SyncManager._try_sync_bookings`:
`{"member_id": b.member_id, "booked_at": b.booked_at.isoformat(), "items": b.items}`.
Note the booking `id` is not part of the payload. -/
structure BookingPayload where
  member_id : String
  booked_at : Nat
  items_json : String
deriving DecidableEq, Repr

/-- Payload entry built from one pending booking. -/
def toPayload (b : PendingBooking) : BookingPayload :=
  ⟨b.member_id, b.booked_at, b.items_json⟩

/-- Result of `ApiClient.sync_bookings`: the returned boolean plus whether a
network request was issued. -/
structure SyncCallResult where
  ok : Bool
  network_called : Bool
deriving DecidableEq, Repr

/-- `ApiClient.sync_bookings`.  An empty batch returns `True` without any
request.  Otherwise a POST is made; `net = none` models a connection-level
exception, `net = some s` a response with HTTP status `s`.
`raise_for_status` raises on every non-2xx status, and both the
`httpx.HTTPStatusError` handler and the catch-all `except Exception`
convert the failure to `False`, so the call never raises past its
boundary (modelled as a total function). -/
def sync_bookings (bookings : List BookingPayload) (net : Option Nat) : SyncCallResult :=
  if bookings.isEmpty then ⟨true, false⟩
  else
    match net with
    | none => ⟨false, true⟩
    | some s => ⟨is_success s, true⟩

/-- Trace of one run of `SyncManager._try_sync_bookings`: the resulting
booking table, the payload sent (empty when no request was made), the ids
passed to `mark_bookings_synced` (empty when it was not called), and
whether `last_sync_at` was updated. -/
structure SyncRun where
  db' : BookingDb
  payload : List BookingPayload
  marked_ids : List String
  last_sync_updated : Bool
deriving Repr

/-- `SyncManager._try_sync_bookings`: enumerate pending bookings; if none,
return.  Otherwise build the payload, call `sync_bookings`, and only on a
`True` result mark exactly the enumerated ids synced and record the sync
time. -/
def try_sync_bookings (db : BookingDb) (net : Option Nat) : SyncRun :=
  let pending := get_pending_bookings db
  if pending.isEmpty then ⟨db, [], [], false⟩
  else
    let payload := pending.map toPayload
    if (sync_bookings payload net).ok then
      ⟨mark_bookings_synced (pending.map (fun b => b.id)) db,
        payload, pending.map (fun b => b.id), true⟩
    else ⟨db, payload, [], false⟩

/-- Cached member row, as written by `replace_member_cache` from the
`{"id": m.id, "name": m.name, "rfid_token": m.rfid_token}` dicts that
`_try_refresh_cache` builds from `ApiClient.fetch_members`. -/
structure MemberRec where
  id : String
  name : String
  rfid_token : Option String
deriving DecidableEq, Repr

/-- Cached product row (`replace_product_cache`); `price` is the decimal
string `str(p.price)`. -/
structure ProductRec where
  id : String
  name : String
  barcode : Option String
  price : String
deriving DecidableEq, Repr

/-- A scalar JSON value, enough for the flat lock-configuration dicts the
server sends (`lock_type`, `lock_host`, `lock_gpio_pin`,
`lock_open_duration_ms`). -/
inductive JScalar where
  | str (v : String)
  | num (v : Int)
  | null
deriving DecidableEq, Repr

/-- The lock-configuration JSON object: a flat dict of scalar fields. -/
abbrev LockJson := List (String × JScalar)

/-- The `/config` response body as used by `_try_refresh_config`:
`config.get("lock")` is its optional `lock` entry. -/
structure KasseConfig where
  lock : Option LockJson
deriving DecidableEq, Repr

/-- Code-point comparison of character lists (the key order of
`json.dumps(..., sort_keys=True)`), written structurally so that it
evaluates inside the kernel. -/
def charListLe : List Char → List Char → Bool
  | [], _ => true
  | _ :: _, [] => false
  | c :: cs, d :: ds =>
      if c.toNat < d.toNat then true
      else if d.toNat < c.toNat then false
      else charListLe cs ds

/-- Lexicographic code-point order on strings. -/
def strLe (a b : String) : Bool := charListLe a.toList b.toList

/-- Insert a key/value pair into a key-sorted assoc list. -/
def insertByKey (p : String × JScalar) : LockJson → LockJson
  | [] => [p]
  | q :: qs => if strLe p.1 q.1 then p :: q :: qs else q :: insertByKey p qs

/-- Key-sort an assoc list (insertion sort). -/
def sortByKey (l : LockJson) : LockJson := l.foldr insertByKey []

/-- Canonical comparison key for a lock configuration, modelling
`json.dumps(new_lock, sort_keys=True) if new_lock else None` in
`_try_refresh_config`.  For a flat dict with distinct keys the dumped
string is determined by, and determines, the key-sorted assoc list, so we
keep the sorted list itself; a falsy value (`None` or the empty dict `{}`)
maps to `none`. -/
def canonKey : Option LockJson → Option LockJson
  | none => none
  | some kvs => if kvs.isEmpty then none else some (sortByKey kvs)

/-- Outcome of one authenticated fetch (`fetch_members`, `fetch_products`,
`fetch_config`): the parsed value, an `AuthError`, or any other exception
(`TransientError`: timeout, non-2xx via `raise_for_status`, connection
reset). -/
inductive FetchOutcome (α : Type) where
  | ok (v : α)
  | authError
  | transientError
deriving DecidableEq, Repr

/-- Classification of the heartbeat call (`ApiClient.heartbeat`):
`AuthError` exactly on status 401/403/404; success on a 2xx status;
any other response status (`raise_for_status`) or a connection-level
exception (`none`) is a transient failure. -/
inductive HbOutcome where
  | ok
  | authError
  | transientError
deriving DecidableEq, Repr

/-- Classify the raw heartbeat response (`none` = connection exception,
`some s` = HTTP status `s`) the way `ApiClient.heartbeat` does. -/
def classify_heartbeat : Option Nat → HbOutcome
  | none => .transientError
  | some s =>
      if authErrorCodes.contains s then .authError
      else if is_success s then .ok
      else .transientError

/-- Mutable state owned by the sync engine: the local database plus the
`SyncManager` status fields.  `lock_config_db` is the persisted
lock-configuration record (`save_lock_config`; the function itself is
missing from the sources — modelled from the spec as overwriting the
single cached record wholesale).  `last_lock_config_json` mirrors
`SyncManager._last_lock_config_json`. -/
structure SyncState where
  bookings : BookingDb
  member_cache : List MemberRec
  product_cache : List ProductRec
  lock_config_db : Option LockJson
  online : Bool
  last_sync_at : Option Nat
  last_cache_at : Option Nat
  last_cache_refresh_ts : Nat
  last_lock_config_json : Option LockJson
deriving DecidableEq, Repr

/-- Environment of one reconciliation cycle: every external effect the
cycle may consult.  `heartbeat_resp` and `booking_net` are raw HTTP
outcomes; `now_mono`/`now_utc` model `time.monotonic()` and
`datetime.now(timezone.utc)`; `refresh_interval` is
`settings.cache_refresh_interval_seconds`. -/
structure CycleEnv where
  health_ok : Bool
  heartbeat_resp : Option Nat
  booking_net : Option Nat
  members : FetchOutcome (List MemberRec)
  products : FetchOutcome (List ProductRec)
  config : FetchOutcome (Option KasseConfig)
  now_mono : Nat
  now_utc : Nat
  refresh_interval : Nat
deriving Repr

/-- Trace of one `_try_refresh_config` run. -/
structure ConfigTrace where
  config_fetched : Bool
  lock_persisted : Bool
  hot_swap_requests : List (Option LockJson)
deriving DecidableEq, Repr

/-- `SyncManager._try_refresh_config`: fetch `/config`; on `AuthError` or
any other exception, or a `None` body, do nothing.  Otherwise persist
`config.get("lock")` via `save_lock_config` unconditionally, and only when
the canonical JSON of the new lock differs from
`_last_lock_config_json` remember the new value and schedule a hot swap
(`Clock.schedule_once` onto the Kivy main thread — modelled as emitting a
request for the host to execute). -/
def try_refresh_config (env : CycleEnv) (st : SyncState) : SyncState × ConfigTrace :=
  match env.config with
  | .authError => (st, ⟨true, false, []⟩)
  | .transientError => (st, ⟨true, false, []⟩)
  | .ok none => (st, ⟨true, false, []⟩)
  | .ok (some cfg) =>
      let st1 := { st with lock_config_db := cfg.lock }
      let new_json := canonKey cfg.lock
      if new_json ≠ st.last_lock_config_json then
        ({ st1 with last_lock_config_json := new_json }, ⟨true, true, [cfg.lock]⟩)
      else
        (st1, ⟨true, true, []⟩)

/-- Trace of one `_try_refresh_cache` run. -/
structure RefreshTrace where
  members_fetched : Bool
  products_fetched : Bool
  config_fetched : Bool
  lock_persisted : Bool
  hot_swap_requests : List (Option LockJson)
deriving DecidableEq, Repr

/-- `SyncManager._try_refresh_cache`: fetch members; any failure aborts the
whole refresh.  Then fetch products, mapping any failure to `None`.
Replace the member cache; replace the product cache only when products
were fetched; run the config refresh; finally update
`_last_cache_refresh_ts` and `last_cache_at`. -/
def try_refresh_cache (env : CycleEnv) (st : SyncState) : SyncState × RefreshTrace :=
  match env.members with
  | .authError => (st, ⟨true, false, false, false, []⟩)
  | .transientError => (st, ⟨true, false, false, false, []⟩)
  | .ok ms =>
      let products? : Option (List ProductRec) :=
        match env.products with
        | .ok ps => some ps
        | .authError => none
        | .transientError => none
      let st1 := { st with member_cache := ms }
      let st2 :=
        match products? with
        | some ps => { st1 with product_cache := ps }
        | none => st1
      let (st3, ctr) := try_refresh_config env st2
      let st4 := { st3 with
        last_cache_refresh_ts := env.now_mono,
        last_cache_at := some env.now_utc }
      (st4, ⟨true, true, ctr.config_fetched, ctr.lock_persisted, ctr.hot_swap_requests⟩)

/-- Trace of one iteration of the `while self._running` body of
`SyncManager._loop` (one reconciliation cycle; the extra
`_try_refresh_cache()` on line 76 runs once at thread start, before the
first cycle, and is not part of any cycle). -/
structure CycleTrace where
  flush_attempted : Bool
  refresh_attempted : Bool
  products_fetched : Bool
  config_fetched : Bool
  deprovisions : Nat
  loop_terminated : Bool
  hot_swap_requests : List (Option LockJson)
deriving DecidableEq, Repr

/-- `SyncManager._deprovision`, as far as local state is concerned.
Modelled from the spec: `clear_all_caches` is imported from `local_db`
but missing from the sources; per the spec it wipes every locally
persisted record (reference caches, booking queue, lock configuration). -/
def deprovision (st : SyncState) : SyncState :=
  { st with
    bookings := [],
    member_cache := [],
    product_cache := [],
    lock_config_db := none }

/-- One reconciliation cycle: the body of the `while` loop in
`SyncManager._loop`.  Probe connectivity and set `online`; if offline,
sleep.  If online, run the heartbeat: an `AuthError` deprovisions and
returns from the loop; a transient heartbeat failure propagates to the
outer `except Exception` handler, ending the cycle with no further work.
Only after a successful heartbeat are the booking flush and, when the
cache is older than the refresh interval, the cache refresh executed. -/
def run_cycle (env : CycleEnv) (st : SyncState) : SyncState × CycleTrace :=
  let st0 := { st with online := env.health_ok }
  if !env.health_ok then
    (st0, ⟨false, false, false, false, 0, false, []⟩)
  else
    match classify_heartbeat env.heartbeat_resp with
    | .authError =>
        (deprovision st0, ⟨false, false, false, false, 1, true, []⟩)
    | .transientError =>
        (st0, ⟨false, false, false, false, 0, false, []⟩)
    | .ok =>
        let r := try_sync_bookings st0.bookings env.booking_net
        let st1 := { st0 with
          bookings := r.db',
          last_sync_at := if r.last_sync_updated then some env.now_utc else st0.last_sync_at }
        if env.now_mono - st1.last_cache_refresh_ts > env.refresh_interval then
          let (st2, rt) := try_refresh_cache env st1
          (st2, ⟨true, true, rt.products_fetched, rt.config_fetched, 0, false,
                 rt.hot_swap_requests⟩)
        else
          (st1, ⟨true, false, false, false, 0, false, []⟩)

/-- The reconciliation loop over a finite schedule of cycle environments:
run cycles in order, stopping early when a cycle returns from the loop
(the `return` in the `AuthError` branch). -/
def run_loop (st : SyncState) : List CycleEnv → SyncState × List CycleTrace
  | [] => (st, [])
  | e :: es =>
      let (st', tr) := run_cycle e st
      if tr.loop_terminated then (st', [tr])
      else
        let (st'', trs) := run_loop st' es
        (st'', tr :: trs)

/-! ### SSE listener (`sse_listener.py`) -/

/-- Backoff constants of `sse_listener.py`: `_INITIAL_BACKOFF = 1.0`,
`_MAX_BACKOFF = 30.0`.  Every value the `backoff` float ever takes is one
of 1.0, 2.0, 4.0, 8.0, 16.0, 30.0 — exactly representable integers — so
the model uses `Nat` seconds with no loss. -/
def initialBackoff : Nat := 1

/-- Ceiling of the SSE reconnect backoff, `_MAX_BACKOFF = 30.0`. -/
def maxBackoff : Nat := 30

/-- Outcome of one `_connect_and_consume` call inside `SSEListener._loop`:
a normal end of stream, an `httpx.HTTPStatusError` carrying the response
status, or any other exception. -/
inductive SSEOutcome where
  | ok
  | httpError (status : Nat)
  | connError
deriving DecidableEq, Repr

/-- The sleeps performed by `SSEListener._loop`, given the current value of
`backoff` and the outcomes of the successive `_connect_and_consume` calls.
A normal end resets `backoff` to the initial value; an HTTP error with an
auth status (401/403/404) stops the listener immediately with no sleep;
every other iteration keeps `backoff`.  After each non-terminating
iteration — the successful ones included — the loop sleeps `backoff`
seconds and then doubles it, capped at the ceiling. -/
def sse_delays (backoff : Nat) : List SSEOutcome → List Nat
  | [] => []
  | o :: rest =>
      match o with
      | .ok =>
          initialBackoff :: sse_delays (min (initialBackoff * 2) maxBackoff) rest
      | .httpError s =>
          if authErrorCodes.contains s then []
          else backoff :: sse_delays (min (backoff * 2) maxBackoff) rest
      | .connError =>
          backoff :: sse_delays (min (backoff * 2) maxBackoff) rest

/-- Python's `str.startswith` test, written structurally on the character
lists so that it evaluates inside the kernel (extensionally the same test
as `String.startsWith`). -/
def startsWithChars : List Char → List Char → Bool
  | _, [] => true
  | [], _ :: _ => false
  | c :: cs, p :: ps => c == p && startsWithChars cs ps

/-- Receiver form of `startsWithChars` on strings: `line.startswith(pat)`. -/
def pyStartsWith (line pat : String) : Bool := startsWithChars line.toList pat.toList

/-- Events flushed by the line loop of `SSEListener._connect_and_consume`:
walking the received lines with the pending `event_type` and accumulated
`data_lines`, it emits `(event_type, "\n".join(data_lines))` at each blank
line whose pending state has a truthy event type and a nonempty data list,
resetting both at every blank line.  Comment lines (leading `:`) are
skipped, `event: ` and `data: ` lines update the pending state, and any
other line is ignored. -/
def processLines (event_type : Option String) (data_lines : List String) :
    List String → List (String × String)
  | [] => []
  | line :: rest =>
      if pyStartsWith line ":" then
        processLines event_type data_lines rest
      else if pyStartsWith line "event: " then
        processLines (some (line.drop 7)) data_lines rest
      else if pyStartsWith line "data: " then
        processLines event_type (data_lines ++ [line.drop 6]) rest
      else if line = "" then
        (match event_type with
         | some t =>
             if t ≠ "" ∧ ¬data_lines.isEmpty then
               [(t, String.intercalate "\n" data_lines)]
             else []
         | none => []) ++ processLines none [] rest
      else
        processLines event_type data_lines rest

/-- A side-effect request handed to the host (Kivy main thread) by the SSE
dispatcher: open the configured lock for the named member. -/
inductive HostRequest where
  | lockOpen (member_name : String)
deriving DecidableEq, Repr

/-- Abstract result of `json.loads` on an event payload: `none` when the
payload is not valid JSON, otherwise the decoded object, of which the
dispatcher only reads the optional `member_name` field. -/
structure EventJson where
  member_name : Option String
deriving DecidableEq, Repr

/-- `SSEListener._handle_event`: decode the payload (`json.loads`, passed
in abstractly as `parse`); on a decode failure return with no effect; on
event type `lock:open` request the host to open the lock with the
payload's `member_name` (default `"Unbekannt"`); ignore every other event
type. -/
def handle_event (parse : String → Option EventJson)
    (event_type : String) (data_str : String) : List HostRequest :=
  match parse data_str with
  | none => []
  | some data =>
      if event_type = "lock:open" then
        [.lockOpen (data.member_name.getD "Unbekannt")]
      else []

/-! ### Sample concrete values used by witness theorems -/

/-- Sample booking table: one undelivered and one already delivered row. -/
def dbSample : BookingDb :=
  [⟨"b1", "m1", "[]", 350, 10, false⟩, ⟨"b2", "m2", "[]", 720, 11, true⟩]

/-- Sample payload entry. -/
def payloadSample : BookingPayload := ⟨"m1", 10, "[]"⟩

/-- Sample engine state. -/
def stSample : SyncState :=
  ⟨dbSample, [], [⟨"p1", "Cola", some "123", "1.50"⟩], none, false, none, none, 0, none⟩

/-- Sample lock configuration. -/
def lockSample : LockJson :=
  [("lock_type", .str "shelly"), ("lock_host", .str "10.0.0.7")]

/-- Sample cycle environment whose heartbeat is rejected with 403. -/
def envAuth : CycleEnv :=
  ⟨true, some 403, some 200, .ok [], .ok [], .ok none, 1000, 42, 300⟩

/-- Sample cycle environment: healthy heartbeat (200), members fetch
succeeds, products fetch fails transiently, config fetch returns
`lockSample`, cache stale (age 1000 > interval 300). -/
def envOk : CycleEnv :=
  ⟨true, some 200, some 200, .ok [⟨"m1", "Alice", none⟩], .transientError,
    .ok (some ⟨some lockSample⟩), 1000, 42, 300⟩

/-- Sample state whose previously applied lock configuration already is
`lockSample`, so a refetch of the same configuration is a no-change
cycle. -/
def stCfgSame : SyncState :=
  { stSample with last_lock_config_json := canonKey (some lockSample) }

/-! ### Helper lemmas -/

/-- Marking with an empty id list leaves the booking table unchanged. -/
theorem mark_bookings_synced_nil (db : BookingDb) :
    mark_bookings_synced [] db = db := by
  simp [mark_bookings_synced]

/-- An already-delivered booking is untouched by `mark_bookings_synced`. -/
theorem mem_mark_bookings_synced_of_synced (ids : List String) (db : BookingDb)
    (b : PendingBooking) (hb : b ∈ db) (hs : b.synced = true) :
    b ∈ mark_bookings_synced ids db := by
  have himg :
      (if ids.contains b.id then { b with synced := true } else b) = b := by
    split
    · cases b
      simp_all
    · rfl
  have h2 : (if ids.contains b.id then { b with synced := true } else b)
      ∈ List.map (fun b => if ids.contains b.id then { b with synced := true } else b) db :=
    List.mem_map_of_mem _ hb
  rw [himg] at h2
  simpa [mark_bookings_synced] using h2

/-- Every booking enumerated by `get_pending_bookings` has `synced = false`. -/
theorem synced_false_of_mem_pending (db : BookingDb) (b : PendingBooking)
    (h : b ∈ get_pending_bookings db) : b.synced = false := by
  simp only [get_pending_bookings, List.mem_filter] at h
  simpa using h.2

/-! ### Claims -/

/-- C10: `mark_bookings_synced(ids)` sets the `synced` flag for exactly the
rows whose id is listed, leaves every other column of every row unchanged,
leaves rows with unlisted ids entirely unchanged, and deletes nothing
(the table keeps its length and row order). -/
theorem c10_mark_synced_frame (booking_ids : List String) (db : BookingDb) :
    mark_bookings_synced booking_ids db
      = db.map (fun b =>
          ⟨b.id, b.member_id, b.items_json, b.total_price, b.booked_at,
            b.synced || booking_ids.contains b.id⟩)
    ∧ (mark_bookings_synced booking_ids db).length = db.length := by
  constructor
  · induction db with
    | nil => rfl
    | cons b bs ih =>
      simp only [mark_bookings_synced, List.map_cons] at ih ⊢
      refine congrArg₂ _ ?_ ih
      cases b with
      | mk i m it tp ba sy =>
        by_cases h : i ∈ booking_ids
        · simp [h]
        · simp [h]
  · simp [mark_bookings_synced]

/-- C1: one run of the booking flush sends in its payload exactly the
bookings enumerated by `get_pending_bookings`; the ids handed to
`mark_bookings_synced` are exactly the ids of that batch, and only when
`sync_bookings` reported success (otherwise nothing is marked); the
resulting table is obtained from the old one purely by marking those ids;
an already-delivered booking survives the run unchanged and is never
enumerated into any batch. -/
theorem c1_flush_marks_exactly_sent_batch (db : BookingDb) (net : Option Nat) :
    (try_sync_bookings db net).payload
        = (get_pending_bookings db).map toPayload
    ∧ (try_sync_bookings db net).marked_ids
        = (if ¬(get_pending_bookings db).isEmpty
              ∧ (sync_bookings ((get_pending_bookings db).map toPayload) net).ok = true
           then (get_pending_bookings db).map (fun b => b.id) else [])
    ∧ (try_sync_bookings db net).db'
        = mark_bookings_synced (try_sync_bookings db net).marked_ids db
    ∧ (∀ b ∈ db, b.synced = true → b ∈ (try_sync_bookings db net).db')
    ∧ (∀ b ∈ get_pending_bookings ((try_sync_bookings db net).db'), b.synced = false) := by
  by_cases he : (get_pending_bookings db).isEmpty
  · have hp : get_pending_bookings db = [] := List.isEmpty_iff.mp he
    refine ⟨by simp [try_sync_bookings, he, hp], by simp [try_sync_bookings, he], ?_, ?_, ?_⟩
    · simp [try_sync_bookings, he, mark_bookings_synced_nil]
    · intro b hb _
      simpa [try_sync_bookings, he] using hb
    · intro b hb
      exact synced_false_of_mem_pending _ b (by simpa [try_sync_bookings, he] using hb)
  · by_cases hok : (sync_bookings ((get_pending_bookings db).map toPayload) net).ok = true
    · refine ⟨by simp [try_sync_bookings, he, hok], by simp [try_sync_bookings, he, hok],
        by simp [try_sync_bookings, he, hok], ?_, ?_⟩
      · intro b hb hs
        simp only [try_sync_bookings, he, hok]
        simp only [Bool.false_eq_true, if_false, if_true]
        exact mem_mark_bookings_synced_of_synced _ db b hb hs
      · intro b hb
        exact synced_false_of_mem_pending _ b hb
    · refine ⟨by simp [try_sync_bookings, he, hok], by simp [try_sync_bookings, he, hok],
        by simp [try_sync_bookings, he, hok, mark_bookings_synced_nil], ?_, ?_⟩
      · intro b hb _
        simpa [try_sync_bookings, he, hok] using hb
      · intro b hb
        exact synced_false_of_mem_pending _ b hb

/-- C1 witness: the theorem instantiated on a concrete table holding one
pending and one delivered booking, with the server acknowledging (200). -/
theorem c1_witness :
    ((try_sync_bookings dbSample (some 200)).marked_ids = ["b1"]
    ∧ (try_sync_bookings dbSample (some 200)).db'
        = mark_bookings_synced (try_sync_bookings dbSample (some 200)).marked_ids dbSample)
    ∧ (⟨"b2", "m2", "[]", 720, 11, true⟩ : PendingBooking)
        ∈ (try_sync_bookings dbSample (some 200)).db' := by
  have h := c1_flush_marks_exactly_sent_batch dbSample (some 200)
  refine ⟨⟨?_, h.2.2.1⟩, ?_⟩
  · rw [h.2.1]
    decide
  · exact h.2.2.2.1 ⟨"b2", "m2", "[]", 720, 11, true⟩ (by decide) rfl

/-- C5 counterexample: the claim says `sync_bookings` returns `True` only
on status 200 or 201, but the success check is `raise_for_status`, which
accepts every 2xx status: a 204 response on a non-empty batch yields
`True`. -/
theorem c5_counterexample :
    (sync_bookings [payloadSample] (some 204)).ok = true
    ∧ ¬(204 = 200 ∨ 204 = 201) := by
  decide

/-- C5 (amended): an empty batch returns `True` with no network request;
a non-empty batch issues a request and returns `True` exactly when the
server answers with a 2xx status (the server's acknowledgment statuses
200/201 among them); every other outcome — non-2xx status, timeout,
connection failure, any exception — yields `False`, and the call never
raises past its boundary (it is a total boolean-valued function). -/
theorem c5_sync_bookings_boundary (bookings : List BookingPayload) (net : Option Nat) :
    (bookings = [] → sync_bookings bookings net = ⟨true, false⟩)
    ∧ (bookings ≠ [] →
        (sync_bookings bookings net).network_called = true
        ∧ ((sync_bookings bookings net).ok = true ↔
            ∃ s, net = some s ∧ is_success s = true)) := by
  constructor
  · intro h
    simp [sync_bookings, h]
  · intro h
    have hne : bookings.isEmpty = false := by
      cases bookings with
      | nil => exact absurd rfl h
      | cons b bs => rfl
    cases net with
    | none => simp [sync_bookings, hne]
    | some s =>
        refine ⟨by simp [sync_bookings, hne], ?_⟩
        constructor
        · intro hs
          exact ⟨s, rfl, by simpa [sync_bookings, hne] using hs⟩
        · rintro ⟨s', hs', hsucc⟩
          obtain rfl : s = s' := by injection hs'
          simpa [sync_bookings, hne] using hsucc

/-- C5 witness: empty batch with a failing server is still a no-request
success; a non-empty batch against a 500 response is a failure. -/
theorem c5_witness :
    sync_bookings [] (some 500) = ⟨true, false⟩
    ∧ ((sync_bookings [payloadSample] (some 500)).network_called = true
       ∧ ((sync_bookings [payloadSample] (some 500)).ok = true ↔
           ∃ s, (some 500 : Option Nat) = some s ∧ is_success s = true)) :=
  ⟨(c5_sync_bookings_boundary [] (some 500)).1 rfl,
   (c5_sync_bookings_boundary [payloadSample] (some 500)).2 (by decide)⟩

/-- Frame of `_try_refresh_config`: it only ever writes the persisted lock
configuration and `_last_lock_config_json`; the booking table, both
caches, the status fields and both refresh timestamps are untouched. -/
theorem try_refresh_config_frame (env : CycleEnv) (st : SyncState) :
    (try_refresh_config env st).1.bookings = st.bookings
    ∧ (try_refresh_config env st).1.member_cache = st.member_cache
    ∧ (try_refresh_config env st).1.product_cache = st.product_cache
    ∧ (try_refresh_config env st).1.online = st.online
    ∧ (try_refresh_config env st).1.last_sync_at = st.last_sync_at
    ∧ (try_refresh_config env st).1.last_cache_at = st.last_cache_at
    ∧ (try_refresh_config env st).1.last_cache_refresh_ts = st.last_cache_refresh_ts := by
  rcases hc : env.config with v | _ | _
  · rcases v with _ | cfg
    · simp [try_refresh_config, hc]
    · by_cases hj : canonKey cfg.lock ≠ st.last_lock_config_json
      · simp [try_refresh_config, hc, hj]
      · simp [try_refresh_config, hc, hj]
  · simp [try_refresh_config, hc]
  · simp [try_refresh_config, hc]

/-- Membership in the auth-error code set, spelled out. -/
theorem contains_auth_iff (s : Nat) :
    authErrorCodes.contains s = true ↔ (s = 401 ∨ s = 403 ∨ s = 404) := by
  simp [authErrorCodes]

/-- Heartbeat classification is an `AuthError` exactly on 401/403/404. -/
theorem classify_heartbeat_eq_auth_iff (r : Option Nat) :
    classify_heartbeat r = .authError
      ↔ ∃ s, r = some s ∧ (s = 401 ∨ s = 403 ∨ s = 404) := by
  cases r with
  | none => simp [classify_heartbeat]
  | some s =>
      simp only [classify_heartbeat]
      by_cases hmem : s = 401 ∨ s = 403 ∨ s = 404
      · rw [if_pos ((contains_auth_iff s).mpr hmem)]
        simp [hmem]
      · rw [if_neg (fun h => hmem ((contains_auth_iff s).mp h))]
        by_cases hs : is_success s = true
        · simp [hs, hmem]
        · have hs' : is_success s = false := by simpa using hs
          simp [hs', hmem]

/-- Every heartbeat failure other than 401/403/404 is transient: a
connection-level exception, or any response status that is neither an
auth code nor a 2xx success. -/
theorem classify_heartbeat_eq_transient_iff (r : Option Nat) :
    classify_heartbeat r = .transientError
      ↔ (r = none ∨ ∃ s, r = some s
          ∧ ¬(s = 401 ∨ s = 403 ∨ s = 404) ∧ is_success s = false) := by
  cases r with
  | none => simp [classify_heartbeat]
  | some s =>
      simp only [classify_heartbeat]
      by_cases hmem : s = 401 ∨ s = 403 ∨ s = 404
      · rw [if_pos ((contains_auth_iff s).mpr hmem)]
        simp only [iff_iff_implies_and_implies]
        refine ⟨fun h => absurd h (by simp), fun h => ?_⟩
        exfalso
        revert h
        rcases hmem with rfl | rfl | rfl <;> simp
      · rw [if_neg (fun h => hmem ((contains_auth_iff s).mp h))]
        by_cases hs : is_success s = true
        · simp [hs, hmem]
        · have hs' : is_success s = false := by simpa using hs
          push_neg at hmem
          simp [hs', hmem]

/-- C2: when the heartbeat classifies as an authorization failure — which
happens exactly on status 401, 403 or 404, every other failure (connection
error or any other response status outside 2xx) being transient — the
cycle attempts no booking flush and no cache refresh, deprovisions exactly
once, and the loop runs no further cycle. -/
theorem c2_auth_short_circuit (env : CycleEnv) (st : SyncState) (rest : List CycleEnv)
    (honline : env.health_ok = true)
    (hauth : classify_heartbeat env.heartbeat_resp = .authError) :
    ((run_cycle env st).2.flush_attempted = false
      ∧ (run_cycle env st).2.refresh_attempted = false
      ∧ (run_cycle env st).2.deprovisions = 1
      ∧ (run_cycle env st).2.loop_terminated = true)
    ∧ run_loop st (env :: rest) = ((run_cycle env st).1, [(run_cycle env st).2])
    ∧ ((run_loop st (env :: rest)).2.map (fun t => t.deprovisions)).sum = 1
    ∧ (∀ r : Option Nat, classify_heartbeat r = .authError
          ↔ ∃ s, r = some s ∧ (s = 401 ∨ s = 403 ∨ s = 404))
    ∧ (∀ r : Option Nat, classify_heartbeat r = .transientError
          ↔ (r = none ∨ ∃ s, r = some s
              ∧ ¬(s = 401 ∨ s = 403 ∨ s = 404) ∧ is_success s = false)) := by
  have hcycle : run_cycle env st
      = (deprovision { st with online := true },
         ⟨false, false, false, false, 1, true, []⟩) := by
    simp [run_cycle, honline, hauth]
  refine ⟨by simp [hcycle], ?_, ?_,
    fun r => classify_heartbeat_eq_auth_iff r,
    fun r => classify_heartbeat_eq_transient_iff r⟩
  · simp [run_loop, hcycle]
  · simp [run_loop, hcycle]

/-- C2 witness: a concrete cycle with a 403 heartbeat deprovisions once
and ends the loop before the scheduled second cycle. -/
theorem c2_witness :
    (run_cycle envAuth stSample).2.deprovisions = 1
    ∧ run_loop stSample (envAuth :: [envAuth])
        = ((run_cycle envAuth stSample).1, [(run_cycle envAuth stSample).2]) := by
  have h := c2_auth_short_circuit envAuth stSample [envAuth] rfl (by decide)
  exact ⟨h.1.2.2.1, h.2.1⟩

/-- C3: in any reconciliation cycle, a booking flush or a cache refresh
can only have happened when the connectivity probe succeeded and the
heartbeat of that same cycle succeeded: both steps are control-dependent
on a successful heartbeat. -/
theorem c3_heartbeat_gates_flush_and_refresh (env : CycleEnv) (st : SyncState)
    (h : (run_cycle env st).2.flush_attempted = true
         ∨ (run_cycle env st).2.refresh_attempted = true) :
    env.health_ok = true ∧ classify_heartbeat env.heartbeat_resp = .ok := by
  by_cases hh : env.health_ok = true
  · cases hcl : classify_heartbeat env.heartbeat_resp with
    | ok => exact ⟨hh, rfl⟩
    | authError =>
        exfalso
        simp [run_cycle, hh, hcl] at h
    | transientError =>
        exfalso
        simp [run_cycle, hh, hcl] at h
  · exfalso
    have hh' : env.health_ok = false := by simpa using hh
    simp [run_cycle, hh'] at h

/-- C3 witness: a concrete cycle that did flush its bookings indeed had a
succeeding probe and heartbeat. -/
theorem c3_witness :
    envOk.health_ok = true ∧ classify_heartbeat envOk.heartbeat_resp = .ok :=
  c3_heartbeat_gates_flush_and_refresh envOk stSample (Or.inl (by decide))

/-- C4: when the members fetch succeeds and the products fetch then fails
with any error (auth or transient), the refresh still commits the new
member cache and updates both refresh timestamps, while the product cache
is left exactly as it was. -/
theorem c4_partial_refresh_commits_members (env : CycleEnv) (st : SyncState)
    (ms : List MemberRec) (hm : env.members = .ok ms)
    (hp : env.products = .authError ∨ env.products = .transientError) :
    (try_refresh_cache env st).1.member_cache = ms
    ∧ (try_refresh_cache env st).1.product_cache = st.product_cache
    ∧ (try_refresh_cache env st).1.last_cache_refresh_ts = env.now_mono
    ∧ (try_refresh_cache env st).1.last_cache_at = some env.now_utc := by
  have hframe := try_refresh_config_frame env { st with member_cache := ms }
  rcases hp with hp | hp <;>
    simp [try_refresh_cache, hm, hp, hframe.2.1, hframe.2.2.1]

/-- C4 witness: a concrete refresh whose products fetch fails transiently
still commits the member cache and the timestamps. -/
theorem c4_witness :
    (try_refresh_cache envOk stSample).1.member_cache = [⟨"m1", "Alice", none⟩]
    ∧ (try_refresh_cache envOk stSample).1.product_cache = stSample.product_cache
    ∧ (try_refresh_cache envOk stSample).1.last_cache_refresh_ts = envOk.now_mono
    ∧ (try_refresh_cache envOk stSample).1.last_cache_at = some envOk.now_utc :=
  c4_partial_refresh_commits_members envOk stSample [⟨"m1", "Alice", none⟩] rfl
    (Or.inr rfl)

/-- C8: a members-fetch failure at the start of a refresh aborts it with no
state change at all — booking table, both caches, lock configuration and
both refresh timestamps are untouched — and neither the products fetch nor
the config fetch is attempted. -/
theorem c8_members_failure_aborts_refresh (env : CycleEnv) (st : SyncState)
    (hm : env.members = .authError ∨ env.members = .transientError) :
    try_refresh_cache env st = (st, ⟨true, false, false, false, []⟩) := by
  rcases hm with hm | hm <;> simp [try_refresh_cache, hm]

/-- C8 witness: a concrete refresh whose members fetch fails transiently
leaves the state untouched and fetches nothing else. -/
theorem c8_witness :
    try_refresh_cache { envOk with members := .transientError } stSample
      = (stSample, ⟨true, false, false, false, []⟩) :=
  c8_members_failure_aborts_refresh { envOk with members := .transientError }
    stSample (Or.inr rfl)

/-- C7 counterexample: the claim says the fetched lock configuration is
persisted only on a change, but `_try_refresh_config` calls
`save_lock_config(new_lock)` unconditionally: refetching a configuration
identical to the previously applied one (canonical key unchanged) still
persists it, while correctly issuing no hot-swap request. -/
theorem c7_counterexample :
    (try_refresh_config envOk stCfgSame).2.lock_persisted = true
    ∧ canonKey (some lockSample) = stCfgSame.last_lock_config_json
    ∧ (try_refresh_config envOk stCfgSame).2.hot_swap_requests = [] := by
  decide

/-- C7 (amended): after every successful configuration fetch with a
non-null body, the fetched lock configuration is persisted
unconditionally; the comparison against the previously applied
configuration — canonical key-sorted JSON, with a falsy (absent or empty)
configuration treated as `None` — gates only the hot swap: exactly on a
change the new canonical key is remembered and one hot-swap request is
emitted for the host's main execution context (the background loop itself
only posts the request). -/
theorem c7_config_refresh_behavior (env : CycleEnv) (st : SyncState)
    (cfg : KasseConfig) (hc : env.config = .ok (some cfg)) :
    ((try_refresh_config env st).1.lock_config_db = cfg.lock
      ∧ (try_refresh_config env st).2.lock_persisted = true)
    ∧ (canonKey cfg.lock ≠ st.last_lock_config_json →
        (try_refresh_config env st).1.last_lock_config_json = canonKey cfg.lock
        ∧ (try_refresh_config env st).2.hot_swap_requests = [cfg.lock])
    ∧ (canonKey cfg.lock = st.last_lock_config_json →
        (try_refresh_config env st).1.last_lock_config_json
            = st.last_lock_config_json
        ∧ (try_refresh_config env st).2.hot_swap_requests = []) := by
  by_cases hj : canonKey cfg.lock ≠ st.last_lock_config_json
  · simp [try_refresh_config, hc, hj]
  · have hj' : canonKey cfg.lock = st.last_lock_config_json := by
      simpa using hj
    simp [try_refresh_config, hc, hj']

/-- C7 witness: a concrete state with no previously applied configuration
receives `lockSample`: it is persisted and one hot-swap request is posted. -/
theorem c7_witness :
    (try_refresh_config envOk stSample).1.lock_config_db = some lockSample
    ∧ (try_refresh_config envOk stSample).2.hot_swap_requests = [some lockSample] := by
  have h := c7_config_refresh_behavior envOk stSample ⟨some lockSample⟩ rfl
  exact ⟨h.1.1, (h.2.1 (by decide)).2⟩

/-- Capping before or after a further doubling gives the same capped
value: `min (min c M * k) M = min (c * k) M` for `k ≥ 1`. -/
theorem min_cap_mul (c k : Nat) (hk : 1 ≤ k) :
    min (min c maxBackoff * k) maxBackoff = min (c * k) maxBackoff := by
  rcases Nat.le_total c maxBackoff with h | h
  · rw [Nat.min_eq_left h]
  · have h1 : maxBackoff ≤ maxBackoff * k := le_mul_of_one_le_right (by omega) hk
    have h2 : maxBackoff ≤ c * k := h1.trans (mul_le_mul_right' h k)
    rw [Nat.min_eq_right h, Nat.min_eq_right h1, Nat.min_eq_right h2]

/-- Delays of an uninterrupted streak of transient failures, for any
starting backoff below the ceiling: the i-th sleep is
`min (b * 2 ^ i) maxBackoff`. -/
theorem sse_delays_replicate (n : Nat) (b : Nat) (hb : b ≤ maxBackoff) :
    sse_delays b (List.replicate n .connError)
      = (List.range n).map (fun i => min (b * 2 ^ i) maxBackoff) := by
  induction n generalizing b with
  | zero => simp [sse_delays]
  | succ n ih =>
      rw [List.replicate_succ]
      show b :: sse_delays (min (b * 2) maxBackoff) (List.replicate n .connError) = _
      rw [ih _ (Nat.min_le_right _ _), List.range_succ_eq_map, List.map_cons,
        List.map_map]
      refine congrArg₂ _ ?_ ?_
      · simpa using (Nat.min_eq_left hb).symm
      · refine List.map_congr_left fun i _ => ?_
        rw [min_cap_mul _ _ (Nat.two_pow_pos i)]
        congr 1
        rw [Nat.succ_eq_add_one, pow_succ]
        ring

/-- C6 counterexample: the loop sleeps and doubles after every iteration,
the successful one included.  With outcomes success, failure, failure the
sleeps are 1.0s, 2.0s, 4.0s: the first reconnect attempt after one
consecutive failure since the reset waits 2.0s, while the claimed formula
`min(initial * 2 ^ (N - 1), ceiling)` gives 1.0s for N = 1. -/
theorem c6_counterexample :
    sse_delays initialBackoff
        [SSEOutcome.ok, SSEOutcome.connError, SSEOutcome.connError]
      = [1, 2, 4]
    ∧ min (initialBackoff * 2 ^ (1 - 1)) maxBackoff = 1
    ∧ (2 : Nat) ≠ 1 := by
  decide

/-- C6 (amended): counted from listener start, after N consecutive
transient failures the delay before the Nth reconnect attempt is
`min(initial * 2 ^ (N - 1), ceiling)` with initial = 1.0s and
ceiling = 30.0s.  A successful connection resets the backoff variable to
the initial value and the loop then sleeps that initial delay once before
reconnecting; but since the backoff is doubled after every iteration,
successful ones included, the delay before the Nth reconnect attempt of a
failure streak that follows a success is `min(initial * 2 ^ N, ceiling)`
— one doubling ahead of the claimed formula. -/
theorem c6_backoff_schedule (n : Nat) (rest : List SSEOutcome) :
    sse_delays initialBackoff (List.replicate n .connError)
      = (List.range n).map (fun i => min (initialBackoff * 2 ^ i) maxBackoff)
    ∧ sse_delays initialBackoff (SSEOutcome.ok :: rest)
      = initialBackoff :: sse_delays (min (initialBackoff * 2) maxBackoff) rest
    ∧ sse_delays initialBackoff (SSEOutcome.ok :: List.replicate n .connError)
      = initialBackoff
        :: (List.range n).map (fun i => min (initialBackoff * 2 ^ (i + 1)) maxBackoff) := by
  refine ⟨sse_delays_replicate n initialBackoff (by decide), rfl, ?_⟩
  show initialBackoff :: sse_delays (min (initialBackoff * 2) maxBackoff)
      (List.replicate n .connError) = _
  rw [sse_delays_replicate n _ (Nat.min_le_right _ _)]
  refine congrArg _ (List.map_congr_left fun i _ => ?_)
  rw [min_cap_mul _ _ (Nat.two_pow_pos i)]
  congr 1
  rw [pow_succ]
  ring

/-- One step of the line walk, written out as the `elif` chain of the
source. -/
theorem processLines_cons (et : Option String) (dls : List String)
    (line : String) (rest : List String) :
    processLines et dls (line :: rest)
      = if pyStartsWith line ":" then processLines et dls rest
        else if pyStartsWith line "event: " then
          processLines (some (line.drop 7)) dls rest
        else if pyStartsWith line "data: " then
          processLines et (dls ++ [line.drop 6]) rest
        else if line = "" then
          (match et with
           | some t =>
               if t ≠ "" ∧ ¬dls.isEmpty
               then [(t, String.intercalate "\n" dls)] else []
           | none => []) ++ processLines none [] rest
        else processLines et dls rest := rfl

/-- Every event the line loop flushes has a non-empty event type (the
`if event_type and data_lines` guard rejects both `None` and the empty
string), whatever pending state the walk starts from. -/
theorem processLines_fst_ne_empty (lines : List String) :
    ∀ (et : Option String) (dls : List String),
      ∀ p ∈ processLines et dls lines, p.1 ≠ "" := by
  induction lines with
  | nil =>
      intro et dls p hp
      simp [processLines] at hp
  | cons line rest ih =>
      intro et dls p hp
      unfold processLines at hp
      split at hp
      · exact ih _ _ p hp
      · split at hp
        · exact ih _ _ p hp
        · split at hp
          · exact ih _ _ p hp
          · split at hp
            · rcases List.mem_append.mp hp with hl | hr
              · split at hl
                · split at hl
                  · rename_i ty hguard
                    rcases List.mem_singleton.mp hl with rfl
                    exact hguard.1
                  · simp at hl
                · simp at hl
              · exact ih _ _ p hr
            · exact ih _ _ p hp

/-- C9: the event-stream line parser dispatches an event at a blank line
exactly when a non-empty event type and at least one data line have
accumulated, and every blank line resets the pending state; every
dispatched event has a non-empty type; a non-blank line never dispatches
anything, only updating the pending state; a payload that fails JSON
decoding is dropped with no effect; and any decoded event whose type is
not `lock:open` is ignored. -/
theorem c9_event_dispatch (et : Option String) (dls : List String)
    (rest lines : List String) (line : String)
    (parse : String → Option EventJson) (t d : String) :
    (processLines et dls ("" :: rest)
      = (match et with
         | some ty =>
             if ty ≠ "" ∧ ¬dls.isEmpty
             then [(ty, String.intercalate "\n" dls)] else []
         | none => []) ++ processLines none [] rest)
    ∧ (∀ p ∈ processLines et dls lines, p.1 ≠ "")
    ∧ (line ≠ "" → ∃ et' dls',
        processLines et dls (line :: rest) = processLines et' dls' rest)
    ∧ (parse d = none → handle_event parse t d = [])
    ∧ (t ≠ "lock:open" → handle_event parse t d = []) := by
  refine ⟨?_, processLines_fst_ne_empty lines et dls, ?_, ?_, ?_⟩
  · have h1 : pyStartsWith "" ":" = false := by decide
    have h2 : pyStartsWith "" "event: " = false := by decide
    have h3 : pyStartsWith "" "data: " = false := by decide
    rw [processLines_cons, h1, h2, h3]
    rw [if_neg (by decide), if_neg (by decide), if_neg (by decide), if_pos rfl]
  · intro hline
    by_cases h1 : pyStartsWith line ":" = true
    · exact ⟨et, dls, by rw [processLines_cons, if_pos h1]⟩
    · by_cases h2 : pyStartsWith line "event: " = true
      · exact ⟨some (line.drop 7), dls,
          by rw [processLines_cons, if_neg h1, if_pos h2]⟩
      · by_cases h3 : pyStartsWith line "data: " = true
        · exact ⟨et, dls ++ [line.drop 6],
            by rw [processLines_cons, if_neg h1, if_neg h2, if_pos h3]⟩
        · exact ⟨et, dls,
            by rw [processLines_cons, if_neg h1, if_neg h2, if_neg h3, if_neg hline]⟩
  · intro hparse
    simp [handle_event, hparse]
  · intro ht
    cases hp : parse d with
    | none => simp [handle_event, hp]
    | some data => simp [handle_event, hp, ht]

/-- C9 witness: a pending `lock:open` event with one data line is flushed
at a blank line; an invalid-JSON payload and a non-`lock:open` event both
dispatch nothing. -/
theorem c9_witness :
    processLines (some "lock:open") ["\x7b\x7d"] ("" :: [])
      = [("lock:open", "\x7b\x7d")]
    ∧ handle_event (fun _ => none) "lock:open" "not json" = []
    ∧ handle_event (fun _ => some ⟨some "Alice"⟩) "member:update" "\x7b\x7d" = [] := by
  have h1 := (c9_event_dispatch (some "lock:open") ["\x7b\x7d"] [] [] "x"
    (fun _ => none) "lock:open" "not json").1
  have h4 := (c9_event_dispatch (some "lock:open") ["\x7b\x7d"] [] [] "x"
    (fun _ => none) "lock:open" "not json").2.2.2.1 rfl
  have h5 := (c9_event_dispatch (some "lock:open") ["\x7b\x7d"] [] [] "x"
    (fun _ => some ⟨some "Alice"⟩) "member:update" "\x7b\x7d").2.2.2.2 (by decide)
  refine ⟨?_, h4, h5⟩
  rw [h1]
  decide

end Clubfridge
